import Mathlib

/-!
Verification development for the `jose_bot` Matrix moderation bot
(`src/jose_bot/`).  The Python source is shallowly embedded: Python
dicts become association lists, each callback becomes a pure function
from its inputs and the responses of the external Matrix client to the
list of effects (state writes, messages) it performs, and an uncaught
Python exception is an explicit `errored` flag.
-/

namespace JoseBot

/-! ## Python dict model (string-keyed, insertion ordered) -/

/-- Python `d[k] = v`: replace the value in place if the key is present,
otherwise append the new binding at the end. -/
def dictSet (d : List (String × Int)) (k : String) (v : Int) :
    List (String × Int) :=
  match d with
  | [] => [(k, v)]
  | (k', v') :: t => if k' = k then (k, v) :: t else (k', v') :: dictSet t k v

/-- Python `del d[k]`: `none` models the `KeyError` raised when the key
is absent. -/
def dictDel (d : List (String × Int)) (k : String) :
    Option (List (String × Int)) :=
  match d with
  | [] => none
  | (k', v') :: t =>
    if k' = k then some t else (dictDel t k).map (fun t' => (k', v') :: t')

/-! ## UTF-8 encoding (Python `str.encode("utf-8")`, applied by the
`xxhash` binding before hashing) -/

/-- UTF-8 bytes of one scalar value. -/
def utf8Bytes (c : Char) : List Nat :=
  let n := c.toNat
  if n < 0x80 then [n]
  else if n < 0x800 then
    [0xC0 ||| (n >>> 6), 0x80 ||| (n &&& 0x3F)]
  else if n < 0x10000 then
    [0xE0 ||| (n >>> 12), 0x80 ||| ((n >>> 6) &&& 0x3F), 0x80 ||| (n &&& 0x3F)]
  else
    [0xF0 ||| (n >>> 18), 0x80 ||| ((n >>> 12) &&& 0x3F),
     0x80 ||| ((n >>> 6) &&& 0x3F), 0x80 ||| (n &&& 0x3F)]

/-- UTF-8 byte sequence of a string. -/
def strBytes (s : String) : List Nat := s.data.flatMap utf8Bytes

/-! ## XXH64 (the `xxhash.xxh64_intdigest` dependency of
`src/jose_bot/utils.py`), on `Nat` reduced mod `2^64` -/

namespace XXH64

def M64 : Nat := 2 ^ 64
def P1 : Nat := 0x9E3779B185EBCA87
def P2 : Nat := 0xC2B2AE3D27D4EB4F
def P3 : Nat := 0x165667B19E3779F9
def P4 : Nat := 0x85EBCA77C2B2AE63
def P5 : Nat := 0x27D4EB2F165667C5

def add64 (a b : Nat) : Nat := (a + b) % M64
def mul64 (a b : Nat) : Nat := (a * b) % M64
def rotl64 (x r : Nat) : Nat :=
  (((x <<< r) % M64) ||| (x >>> (64 - r)))

/-- Little-endian read of a byte list. -/
def readLE (bs : List Nat) : Nat := bs.foldr (fun b acc => b + 256 * acc) 0

def round (acc lane : Nat) : Nat :=
  mul64 (rotl64 (add64 acc (mul64 lane P2)) 31) P1

def mergeRound (h v : Nat) : Nat :=
  add64 (mul64 (Nat.xor h (round 0 v)) P1) P4

def avalanche (h : Nat) : Nat :=
  let h1 := mul64 (Nat.xor h (h >>> 33)) P2
  let h2 := mul64 (Nat.xor h1 (h1 >>> 29)) P3
  Nat.xor h2 (h2 >>> 32)

/-- Main loop: consume 32-byte stripes while at least 32 bytes remain. -/
def stripes (v1 v2 v3 v4 : Nat) :
    List Nat → Nat × Nat × Nat × Nat × List Nat
  | b0 :: b1 :: b2 :: b3 :: b4 :: b5 :: b6 :: b7 ::
    c0 :: c1 :: c2 :: c3 :: c4 :: c5 :: c6 :: c7 ::
    d0 :: d1 :: d2 :: d3 :: d4 :: d5 :: d6 :: d7 ::
    e0 :: e1 :: e2 :: e3 :: e4 :: e5 :: e6 :: e7 :: rest =>
    stripes
      (round v1 (readLE [b0, b1, b2, b3, b4, b5, b6, b7]))
      (round v2 (readLE [c0, c1, c2, c3, c4, c5, c6, c7]))
      (round v3 (readLE [d0, d1, d2, d3, d4, d5, d6, d7]))
      (round v4 (readLE [e0, e1, e2, e3, e4, e5, e6, e7])) rest
  | bs => (v1, v2, v3, v4, bs)

/-- Tail: consume 8-byte lanes while at least 8 bytes remain. -/
def tail8 (h : Nat) : List Nat → Nat × List Nat
  | b0 :: b1 :: b2 :: b3 :: b4 :: b5 :: b6 :: b7 :: rest =>
    tail8 (add64 (mul64 (rotl64 (Nat.xor h
      (round 0 (readLE [b0, b1, b2, b3, b4, b5, b6, b7]))) 27) P1) P4) rest
  | bs => (h, bs)

/-- Tail: consume one 4-byte lane if at least 4 bytes remain. -/
def tail4 (h : Nat) : List Nat → Nat × List Nat
  | b0 :: b1 :: b2 :: b3 :: rest =>
    (add64 (mul64 (rotl64 (Nat.xor h
      (mul64 (readLE [b0, b1, b2, b3]) P1)) 23) P2) P3, rest)
  | bs => (h, bs)

/-- Tail: consume the remaining bytes one at a time. -/
def tail1 (h : Nat) (bs : List Nat) : Nat :=
  bs.foldl (fun h b => mul64 (rotl64 (Nat.xor h (mul64 b P5)) 11) P1) h

def finishTail (h : Nat) (bs : List Nat) : Nat :=
  let (h1, bs1) := tail8 h bs
  let (h2, bs2) := tail4 h1 bs1
  avalanche (tail1 h2 bs2)

/-- XXH64 with seed 0 over a byte list. -/
def xxh64 (bs : List Nat) : Nat :=
  if bs.length ≥ 32 then
    match stripes (add64 P1 P2) P2 0 (M64 - P1) bs with
    | (v1, v2, v3, v4, rest) =>
      let h := add64 (add64 (add64 (rotl64 v1 1) (rotl64 v2 7))
        (rotl64 v3 12)) (rotl64 v4 18)
      let h := mergeRound (mergeRound (mergeRound (mergeRound h v1) v2) v3) v4
      finishTail (add64 h bs.length) rest
  else
    finishTail (add64 P5 bs.length) bs

end XXH64

/-- `xxhash.xxh64_intdigest` on a Python `str` (UTF-8 encoded, seed 0). -/
def xxh64_intdigest (s : String) : Nat := XXH64.xxh64 (strBytes s)

/-! ## `src/jose_bot/utils.py` -/

/-- `REACTIONS` from `utils.py`. -/
def REACTIONS : List String := ["🎉", "🤣", "😃", "😋", "🥳", "🤔", "😅"]

/-- `hash_user_id` from `utils.py`:
`REACTIONS[xxhash.xxh64_intdigest(user_id) % len(REACTIONS)]`. -/
def hash_user_id (user_id : String) : String :=
  REACTIONS.getD (xxh64_intdigest user_id % REACTIONS.length) ""

/-! ## `get_user_id_parts` (`utils.py`): `re.match(MATRIX_UID_RE, user_id)`

`MATRIX_UID_RE` is
`@([\!-9\;-\~]+):(ipv4ish|\[[0-9A-Fa-f:.]{2,45}\]|[-.0-9A-Za-z]{1,255}(?::[0-9]{1,5})?)`
with `ipv4ish = [0-9]{1,3}.[0-9]{1,3}.[0-9]{1,3}.[0-9]{1,3}` (the dots are
unescaped, so they match any character but a newline).  `re.match` anchors
at the start only.  The Python engine's leftmost-greedy backtracking is
reproduced: the localpart class excludes `:` and the bracket/class
alternatives exclude their closing delimiters, so every quantifier except
those inside the ipv4 alternative resolves to its maximal munch; the ipv4
alternative is a genuine backtracking search, implemented as such. -/

/-- Localpart class `[\!-9\;-\~]`: `!`..`9` and `;`..`~` (excludes `:`). -/
def isLocalChar (c : Char) : Bool :=
  (0x21 ≤ c.toNat && c.toNat ≤ 0x39) || (0x3B ≤ c.toNat && c.toNat ≤ 0x7E)

def isDigitChar (c : Char) : Bool := 0x30 ≤ c.toNat && c.toNat ≤ 0x39

/-- Class `[0-9A-Fa-f:.]` of the bracketed (IPv6) alternative. -/
def isHexChar (c : Char) : Bool :=
  isDigitChar c || (0x41 ≤ c.toNat && c.toNat ≤ 0x46) ||
  (0x61 ≤ c.toNat && c.toNat ≤ 0x66) || c = ':' || c = '.'

/-- Class `[-.0-9A-Za-z]` of the DNS-name alternative. -/
def isDnsChar (c : Char) : Bool :=
  c = '-' || c = '.' || isDigitChar c ||
  (0x41 ≤ c.toNat && c.toNat ≤ 0x5A) || (0x61 ≤ c.toNat && c.toNat ≤ 0x7A)

/-- An unescaped `.` in the pattern: any character except a newline. -/
def isAnyChar (c : Char) : Bool := c ≠ '\n'

/-- Length of the leading run of characters satisfying `p`, capped at `cap`
(the upper bound of a bounded greedy quantifier). -/
def runLen (p : Char → Bool) (cap : Nat) (s : List Char) : Nat :=
  ((s.take cap).takeWhile p).length

/-- Take exactly `k` characters satisfying `p`; return the rest. -/
def takeExact (p : Char → Bool) : Nat → List Char → Option (List Char)
  | 0, s => some s
  | _ + 1, [] => none
  | k + 1, c :: s => if p c then takeExact p k s else none

/-- Backtracking match of `n` groups `[0-9]{1,3}` separated by a single
any-character, greedy (3, then 2, then 1 digits), returning the suffix
after the first successful match. -/
def ipv4Groups : Nat → List Char → Option (List Char)
  | 0, _ => none
  | n + 1, s =>
    let step (k : Nat) : Option (List Char) :=
      match takeExact isDigitChar k s with
      | none => none
      | some s1 =>
        if n = 0 then some s1
        else
          match s1 with
          | c :: s2 => if isAnyChar c then ipv4Groups n s2 else none
          | [] => none
    ((step 3).orElse fun _ => (step 2).orElse fun _ => step 1)

/-- The bracketed alternative `\[[0-9A-Fa-f:.]{2,45}\]`. -/
def bracketMatch : List Char → Option (List Char)
  | '[' :: s1 =>
    let m := runLen isHexChar 45 s1
    if m < 2 then none
    else
      match s1.drop m with
      | ']' :: rest => some rest
      | _ => none
  | _ => none

/-- The DNS alternative `[-.0-9A-Za-z]{1,255}(?::[0-9]{1,5})?`. -/
def dnsMatch (s : List Char) : Option (List Char) :=
  let m := runLen isDnsChar 255 s
  if m = 0 then none
  else
    let rest := s.drop m
    match rest with
    | ':' :: r1 =>
      let d := runLen isDigitChar 5 r1
      if d = 0 then some rest else some (r1.drop d)
    | _ => some rest

/-- The domain alternation (group 2), alternatives in pattern order,
returning the suffix after the matched domain. -/
def domainMatch (s : List Char) : Option (List Char) :=
  ((ipv4Groups 4 s).orElse fun _ => (bracketMatch s).orElse fun _ => dnsMatch s)

/-- `get_user_id_parts` from `utils.py`.  `none` models the
`AttributeError` raised on `None.groups()` when the regex does not match. -/
def get_user_id_parts (user_id : String) : Option (String × String) :=
  match user_id.data with
  | '@' :: s =>
    let m := (s.takeWhile isLocalChar).length
    if m = 0 then none
    else
      match s.drop m with
      | ':' :: s2 =>
        match domainMatch s2 with
        | none => none
        | some rest =>
          some (String.mk (s.take m),
                String.mk (s2.take (s2.length - rest.length)))
      | _ => none
  | _ => none

/-! ## Data model shared by the callbacks (`callbacks.py`,
`chat_functions.py`) -/

/-- The two fields of the configuration that the callbacks read
(`self.config.allowed_servers`, `self.config.dry_run`); the
configuration loader itself is an external collaborator. -/
structure Config where
  allowed_servers : List String
  dry_run : Bool

/-- The content of the `m.room.power_levels` state event as the bot uses
it: the `events` and `users` mappings. -/
structure PowerLevelsContent where
  events : List (String × Int)
  users : List (String × Int)
deriving DecidableEq

/-- The vendor extension dict `io.github.shadowrz.jose_bot` carried in
bot-authored message content, with the two keys the code reads. -/
structure BotData where
  type : Option String
  state_key : Option String
deriving DecidableEq

/-- The content of a fetched event as far as `_reaction` inspects it:
the vendor extension dict, if the key is present. -/
structure FetchedEvent where
  bot : Option BotData
deriving DecidableEq

/-- `is_bot_event` from `utils.py`:
`"io.github.shadowrz.jose_bot" in content`. -/
def is_bot_event (e : FetchedEvent) : Bool := e.bot.isSome

/-- `get_bot_event_type` from `utils.py`. -/
def get_bot_event_type (e : FetchedEvent) : Option String :=
  if is_bot_event e then
    (e.bot.getD { type := none, state_key := none }).type
  else none

/-- `content.get("io.github.shadowrz.jose_bot", {}).get("state_key")`
as read by `_reaction` (`callbacks.py` line 109). -/
def get_bot_state_key (e : FetchedEvent) : Option String :=
  (e.bot.getD { type := none, state_key := none }).state_key

/-- The room data the membership callback reads: the member directory,
mapping user id to display name (`room.users[user_id].name`). -/
structure MatrixRoom where
  users : List (String × String)

/-- `user_name` from `utils.py`. -/
def user_name (room : MatrixRoom) (user_id : String) : Option String :=
  room.users.lookup user_id

/-- Python f-string rendering of an optional string (`None` prints as
`"None"`). -/
def pyStr (o : Option String) : String := o.getD "None"

/-! ## `send_text_to_room` (`chat_functions.py`) -/

/-- The message content `send_text_to_room` builds. -/
structure MessageContent where
  msgtype : String
  body : String
  bot_type : String
  bot_state_key : Option String
  bot_in_reply_to : Option String
deriving DecidableEq

/-- `send_text_to_room`: builds the content dict it passes to
`room_send`.  `if not content[...].get("type")` is Python falsiness, so
a missing or empty `type` becomes `"text"`. -/
def send_text_to_room (message : String) (notice : Bool)
    (reply_to_event_id : Option String) (extended_data : Option BotData) :
    MessageContent :=
  let ext := extended_data.getD { type := none, state_key := none }
  { msgtype := if notice then "m.notice" else "m.text"
    body := message
    bot_type :=
      match ext.type with
      | some t => if t = "" then "text" else t
      | none => "text"
    bot_state_key := ext.state_key
    bot_in_reply_to := reply_to_event_id }

/-! ## The external `PowerLevels` capability check -/

/-- Modelled from the spec: the external `PowerLevels` collaborator whose
`can_user_send_state` the demote path consults before writing (§4.3
step 3; §6 lists the "insufficient capability" outcome the core must
check before attempting the write).  The bot's level is its entry in the
`users` mapping (default 0), and the level required to send a state
event is the `events` entry for its type (protocol default 50 for state
events). -/
def can_user_send_state (events users : List (String × Int))
    (user_id etype : String) : Bool :=
  (users.lookup user_id).getD 0 ≥ (events.lookup etype).getD 50

/-! ## `Callbacks.invite` and its filter (`callbacks.py` lines 42-80) -/

/-- The `for attempt in range(3)` join loop: `results n = true` means the
`n`-th `client.join` call does not return a `JoinError`.  Returns the
number of join calls made and whether one of them succeeded; the `else`
branch of the loop (all attempts failed) gives up. -/
def inviteLoop (results : Nat → Bool) : Nat → Nat → Nat × Bool
  | attempt, 0 => (attempt, false)
  | attempt, fuel + 1 =>
    if results attempt then (attempt + 1, true)
    else inviteLoop results (attempt + 1) fuel

/-- `Callbacks.invite`: at most 3 join attempts. -/
def invite (results : Nat → Bool) : Nat × Bool := inviteLoop results 0 3

/-- `Callbacks.invite_event_filtered_callback`: only the membership entry
keyed by the bot's own user id is forwarded to `invite`. -/
def invite_event_filtered_callback (bot_id state_key : String)
    (results : Nat → Bool) : Option (Nat × Bool) :=
  if state_key = bot_id then some (invite results) else none

/-! ## `Callbacks.membership` (`callbacks.py` lines 158-210) -/

/-- The membership event fields the callback reads. -/
structure MemberEvent where
  membership : String
  prev_membership : Option String
  state_key : String

/-- Responses of the external client during one `membership` invocation:
the `m.room.power_levels` read (`none` = `RoomGetStateEventError`) and
whether the `room_put_state` call succeeds (`false` =
`RoomPutStateError`). -/
structure MembershipEnv where
  get_state : Option PowerLevelsContent
  put_ok : Bool

/-- Effects of one `membership` invocation: whether it raised an uncaught
exception, the `room_put_state` payloads it sent, and the messages it
posted. -/
structure MembershipOutcome where
  errored : Bool
  puts : List PowerLevelsContent
  messages : List MessageContent
deriving DecidableEq

def noActions : MembershipOutcome := ⟨false, [], []⟩

/-- The guard of `membership`: a transition to `join` from a prior state
in `{None, "invite", "leave"}`. -/
def newJoin (ev : MemberEvent) : Prop :=
  ev.membership = "join" ∧
    (ev.prev_membership = none ∨ ev.prev_membership = some "invite" ∨
     ev.prev_membership = some "leave")

instance (ev : MemberEvent) : Decidable (newJoin ev) := by
  unfold newJoin; infer_instance

/-- Body of the confirmation message (`callbacks.py` line 207). -/
def joinConfirmBody (room : MatrixRoom) (sk : String) : String :=
  "新加群的用户 " ++ pyStr (user_name room sk) ++ " (" ++ sk ++
  ") 请用 Reaction " ++ hash_user_id sk ++ " 回复本条消息"

/-- `Callbacks.membership`.  `errored = true` models the uncaught
`AttributeError` from `get_user_id_parts` on a malformed user id. -/
def membership (cfg : Config) (bot_user : String) (room : MatrixRoom)
    (env : MembershipEnv) (ev : MemberEvent) : MembershipOutcome :=
  if newJoin ev then
    match get_user_id_parts ev.state_key with
    | none => { errored := true, puts := [], messages := [] }
    | some (_, domain) =>
      if domain ∈ cfg.allowed_servers then noActions
      else if cfg.dry_run then noActions
      else
        match env.get_state with
        | none => noActions
        | some st =>
          let events := dictSet st.events "m.reaction" (-1)
          if can_user_send_state events st.users bot_user
              "m.room.power_levels" then
            let users := dictSet st.users ev.state_key (-1)
            if env.put_ok then
              { errored := false
                puts := [⟨events, users⟩]
                messages := [send_text_to_room
                  (joinConfirmBody room ev.state_key) true none
                  (some { type := some "join_confirm"
                          state_key := some ev.state_key })] }
            else { errored := false, puts := [⟨events, users⟩], messages := [] }
          else noActions
  else noActions

/-! ## `Callbacks._reaction` (`callbacks.py` lines 82-133) -/

/-- Responses of the external client during one `_reaction` invocation:
the target-event fetch (`none` = `RoomGetEventError`) and the
`m.room.power_levels` read (`none` = `RoomGetStateEventError`). -/
structure ReactionEnv where
  get_event : Option FetchedEvent
  get_state : Option PowerLevelsContent

/-- Effects of one `_reaction` invocation: whether it raised an uncaught
exception and the `room_put_state` payloads it sent. -/
structure ReactionOutcome where
  errored : Bool
  puts : List PowerLevelsContent
deriving DecidableEq

def reactionNoop : ReactionOutcome := ⟨false, []⟩

/-- `Callbacks._reaction`.  `reaction_key` is
`event.source["content"]["m.relates_to"]["key"]` (absent keys give
`none`).  `errored = true` models the uncaught `TypeError` from
`hash_user_id(None)` and the uncaught `KeyError` from `del users[k]` on
an absent key. -/
def reaction (env : ReactionEnv) (reaction_key : Option String) :
    ReactionOutcome :=
  match env.get_event with
  | none => reactionNoop
  | some tgt =>
    if is_bot_event tgt = true ∧ get_bot_event_type tgt = some "join_confirm"
        then
      match get_bot_state_key tgt with
      | none => { errored := true, puts := [] }
      | some sk =>
        let required := hash_user_id sk
        if reaction_key = some required then
          match env.get_state with
          | none => reactionNoop
          | some st =>
            match dictDel st.users sk with
            | none => { errored := true, puts := [] }
            | some users' => { errored := false, puts := [⟨st.events, users'⟩] }
        else reactionNoop
    else reactionNoop

/-! ## Dictionary lemmas -/

theorem lookup_dictSet_self (d : List (String × Int)) (k : String) (v : Int) :
    (dictSet d k v).lookup k = some v := by
  induction d with
  | nil => simp [dictSet, List.lookup_cons]
  | cons hd t ih =>
    obtain ⟨k', v'⟩ := hd
    by_cases h : k' = k
    · subst h; simp [dictSet, List.lookup_cons]
    · simp [dictSet, h, List.lookup_cons, beq_false_of_ne (Ne.symm h), ih]

theorem mem_keys_dictSet (d : List (String × Int)) (k : String) (v : Int)
    (k'' : String) :
    k'' ∈ (dictSet d k v).map Prod.fst ↔
      k'' ∈ d.map Prod.fst ∨ k'' = k := by
  induction d with
  | nil => simp [dictSet]
  | cons hd t ih =>
    obtain ⟨ka, va⟩ := hd
    by_cases h : ka = k
    · subst h; simp [dictSet]; tauto
    · simp [dictSet, h, ih]; tauto

theorem nodup_keys_dictSet (d : List (String × Int)) (k : String) (v : Int)
    (h : (d.map Prod.fst).Nodup) :
    ((dictSet d k v).map Prod.fst).Nodup := by
  induction d with
  | nil => simp [dictSet]
  | cons hd t ih =>
    obtain ⟨ka, va⟩ := hd
    simp only [List.map_cons, List.nodup_cons] at h
    by_cases hk : ka = k
    · subst hk
      simpa [dictSet, List.nodup_cons] using h
    · simp only [dictSet, hk, if_false, List.map_cons, List.nodup_cons]
      refine ⟨fun hmem => ?_, ih h.2⟩
      rcases (mem_keys_dictSet t k v ka).mp hmem with h1 | h1
      · exact h.1 h1
      · exact hk h1

theorem dictDel_of_lookup (d : List (String × Int)) (k : String) (v : Int)
    (h : d.lookup k = some v) : ∃ d', dictDel d k = some d' := by
  induction d with
  | nil => simp [List.lookup] at h
  | cons hd t ih =>
    obtain ⟨ka, va⟩ := hd
    by_cases hk : ka = k
    · exact ⟨t, by simp [dictDel, hk]⟩
    · rw [List.lookup_cons] at h
      rw [beq_false_of_ne (Ne.symm hk)] at h
      obtain ⟨d', hd'⟩ := ih h
      exact ⟨(ka, va) :: d', by simp [dictDel, hk, hd']⟩

theorem lookup_eq_none_of_not_mem_keys (d : List (String × Int)) (k : String)
    (h : k ∉ d.map Prod.fst) : d.lookup k = none := by
  induction d with
  | nil => simp [List.lookup]
  | cons hd t ih =>
    obtain ⟨ka, va⟩ := hd
    simp only [List.map_cons, List.mem_cons, not_or] at h
    rw [List.lookup_cons, beq_false_of_ne h.1]
    exact ih h.2

theorem lookup_dictDel_self (d d' : List (String × Int)) (k : String)
    (hnd : (d.map Prod.fst).Nodup) (h : dictDel d k = some d') :
    d'.lookup k = none := by
  induction d generalizing d' with
  | nil => simp [dictDel] at h
  | cons hd t ih =>
    obtain ⟨ka, va⟩ := hd
    simp only [List.map_cons, List.nodup_cons] at hnd
    simp only [dictDel] at h
    split at h
    · next hk =>
      injection h with h
      subst h
      subst hk
      exact lookup_eq_none_of_not_mem_keys _ _ hnd.1
    · next hk =>
      rcases hdel : dictDel t k with _ | t'
      · rw [hdel] at h; simp at h
      · rw [hdel] at h
        simp only [Option.map_some', Option.some.injEq] at h
        subst h
        rw [List.lookup_cons, beq_false_of_ne (Ne.symm hk)]
        exact ih _ hnd.2 hdel

theorem lookup_dictDel_ne (d d' : List (String × Int)) (k k' : String)
    (h : dictDel d k = some d') (hne : k' ≠ k) :
    d'.lookup k' = d.lookup k' := by
  induction d generalizing d' with
  | nil => simp [dictDel] at h
  | cons hd t ih =>
    obtain ⟨ka, va⟩ := hd
    simp only [dictDel] at h
    split at h
    · next hk =>
      injection h with h
      subst h
      subst hk
      rw [List.lookup_cons, beq_false_of_ne hne]
    · next hk =>
      rcases hdel : dictDel t k with _ | t'
      · rw [hdel] at h; simp at h
      · rw [hdel] at h
        simp only [Option.map_some', Option.some.injEq] at h
        subst h
        rw [List.lookup_cons, List.lookup_cons]
        rw [ih _ hdel]

theorem getD_mem_of_lt (l : List String) (i : Nat) (d : String)
    (h : i < l.length) : l.getD i d ∈ l := by
  induction l generalizing i with
  | nil => simp at h
  | cons a t ih =>
    cases i with
    | zero => simp
    | succ n =>
      simp only [List.getD_cons_succ]
      exact List.mem_cons_of_mem _ (ih n (by simpa using h))

/-! ## Range of the hash -/

theorem shiftRight_le_self (x n : Nat) : x >>> n ≤ x := by
  rw [Nat.shiftRight_eq_div_pow]
  exact Nat.div_le_self _ _

theorem avalanche_lt (h : Nat) : XXH64.avalanche h < XXH64.M64 := by
  unfold XXH64.avalanche XXH64.mul64 XXH64.M64
  refine Nat.xor_lt_two_pow (Nat.mod_lt _ (by positivity)) ?_
  exact Nat.lt_of_le_of_lt (shiftRight_le_self _ _) (Nat.mod_lt _ (by positivity))

theorem finishTail_lt (h : Nat) (bs : List Nat) :
    XXH64.finishTail h bs < XXH64.M64 := by
  unfold XXH64.finishTail
  exact avalanche_lt _

theorem xxh64_lt (bs : List Nat) : XXH64.xxh64 bs < XXH64.M64 := by
  unfold XXH64.xxh64
  split
  · split
    exact finishTail_lt _ _
  · exact finishTail_lt _ _

theorem xxh64_intdigest_lt (s : String) : xxh64_intdigest s < 2 ^ 64 :=
  xxh64_lt (strBytes s)

/-! ## Claim theorems -/

/-- C6: the challenge generator is a pure deterministic function: for
every user identifier string, repeated applications return the identical
token, the token is always an element of the fixed ordered token set
`REACTIONS`, and it is selected by a 64-bit hash reduced modulo the set
size. -/
theorem challenge_generator_deterministic (u : String) :
    hash_user_id u = hash_user_id u ∧
    hash_user_id u ∈ REACTIONS ∧
    xxh64_intdigest u < 2 ^ 64 ∧
    hash_user_id u =
      REACTIONS.getD (xxh64_intdigest u % REACTIONS.length) "" := by
  refine ⟨rfl, ?_, xxh64_intdigest_lt u, rfl⟩
  unfold hash_user_id
  refine getD_mem_of_lt _ _ _ (Nat.mod_lt _ ?_)
  decide

/-- C8: an invitation addressed to the bot's own identity is forwarded to
the join loop, which makes at most 3 join calls, stops on the first
success, and after 3 consecutive failures gives up with the room
un-joined and no 4th call. -/
theorem invite_retry_bound (bot_id state_key : String)
    (results : Nat → Bool) (h : state_key = bot_id) :
    invite_event_filtered_callback bot_id state_key results =
      some (invite results) ∧
    (invite results).1 ≤ 3 ∧
    (results 0 = false → results 1 = false → results 2 = false →
      invite results = (3, false)) ∧
    (∀ k, k < 3 → results k = true → (∀ i, i < k → results i = false) →
      invite results = (k + 1, true)) := by
  refine ⟨by simp [invite_event_filtered_callback, h], ?_, ?_, ?_⟩
  · cases h0 : results 0 <;> cases h1 : results 1 <;> cases h2 : results 2 <;>
      simp [invite, inviteLoop, h0, h1, h2]
  · intro r0 r1 r2
    simp [invite, inviteLoop, r0, r1, r2]
  · intro k hk ht hprev
    interval_cases k
    · simp [invite, inviteLoop, ht]
    · have h0 := hprev 0 (by omega)
      simp [invite, inviteLoop, h0, ht]
    · have h0 := hprev 0 (by omega)
      have h1 := hprev 1 (by omega)
      simp [invite, inviteLoop, h0, h1, ht]

/-- Witness for C8: with every join call failing, exactly 3 calls are
made and the room stays un-joined. -/
theorem invite_retry_bound_witness : invite (fun _ => false) = (3, false) :=
  (invite_retry_bound "@jose:example.org" "@jose:example.org"
    (fun _ => false) rfl).2.2.1 rfl rfl rfl

/-- C1: an event that is not a new join (transition to `join` from
`{none, invite, leave}`) is ignored; for a new join whose user id parses
and with the state read, the capability check and the write succeeding,
permission demotion is applied iff the joining user's domain is absent
from the allowlist and the system is not in dry-run mode. -/
theorem allowlist_demotion_iff (cfg : Config) (bot_user : String)
    (room : MatrixRoom) (env : MembershipEnv) (ev : MemberEvent) :
    (¬ newJoin ev → membership cfg bot_user room env ev = noActions) ∧
    (∀ lp domain st, newJoin ev →
      get_user_id_parts ev.state_key = some (lp, domain) →
      env.get_state = some st →
      can_user_send_state (dictSet st.events "m.reaction" (-1)) st.users
        bot_user "m.room.power_levels" = true →
      env.put_ok = true →
      ((membership cfg bot_user room env ev).puts ≠ [] ↔
        (domain ∉ cfg.allowed_servers ∧ cfg.dry_run = false))) := by
  constructor
  · intro h
    simp [membership, h]
  · intro lp domain st hnew hparse hread hcap hput
    rw [membership, if_pos hnew, hparse]
    by_cases hall : domain ∈ cfg.allowed_servers
    · simp [hall, noActions]
    · by_cases hdry : cfg.dry_run
      · simp [hall, hdry, noActions]
      · simp [hall, hdry, hread, hcap, hput]

/-- Witness for C1: the user `@spam:evil.example` joining a room whose
allowlist is `{trusted.example}` (not dry-run, state read, capability
and write all fine) is demoted. -/
theorem allowlist_demotion_iff_witness :
    (membership ⟨["trusted.example"], false⟩ "@jose:example.org" ⟨[]⟩
      ⟨some ⟨[], [("@jose:example.org", 100)]⟩, true⟩
      ⟨"join", none, "@spam:evil.example"⟩).puts ≠ [] :=
  ((allowlist_demotion_iff ⟨["trusted.example"], false⟩ "@jose:example.org"
      ⟨[]⟩ ⟨some ⟨[], [("@jose:example.org", 100)]⟩, true⟩
      ⟨"join", none, "@spam:evil.example"⟩).2 "spam" "evil.example"
    ⟨[], [("@jose:example.org", 100)]⟩ (by decide) (by decide) rfl
    (by decide) rfl).mpr (by decide)

/-- C7: on the demote path the capability check runs before the write:
if the bot cannot send the `m.room.power_levels` state event, the
handler stops with no write and no message (and no error). -/
theorem capability_checked_before_write (cfg : Config) (bot_user : String)
    (room : MatrixRoom) (env : MembershipEnv) (ev : MemberEvent)
    (lp domain : String) (st : PowerLevelsContent)
    (hnew : newJoin ev)
    (hparse : get_user_id_parts ev.state_key = some (lp, domain))
    (hall : domain ∉ cfg.allowed_servers)
    (hdry : cfg.dry_run = false)
    (hread : env.get_state = some st)
    (hcap : can_user_send_state (dictSet st.events "m.reaction" (-1)) st.users
      bot_user "m.room.power_levels" = false) :
    membership cfg bot_user room env ev = noActions := by
  rw [membership, if_pos hnew, hparse]
  simp [hall, hdry, hread, hcap]

/-- Witness for C7: in a room whose power-level state gives the bot no
entry (level 0 < the state default 50), the join of
`@spam:evil.example` produces no write and no message. -/
theorem capability_checked_before_write_witness :
    membership ⟨["trusted.example"], false⟩ "@jose:example.org" ⟨[]⟩
      ⟨some ⟨[], []⟩, true⟩ ⟨"join", none, "@spam:evil.example"⟩ =
      noActions :=
  capability_checked_before_write ⟨["trusted.example"], false⟩
    "@jose:example.org" ⟨[]⟩ ⟨some ⟨[], []⟩, true⟩
    ⟨"join", none, "@spam:evil.example"⟩ "spam" "evil.example" ⟨[], []⟩
    (by decide) (by decide) (by decide) rfl rfl (by decide)

/-- C4: at the failing input, a join event whose user id does not match
the user-id regex makes `get_user_id_parts` raise (`re.match` returns
`None`, so `.groups()` raises `AttributeError`), so the handler aborts
with an uncaught exception: the user is neither treated as
not-allowlisted nor demoted — no write and no message happen, the
malformed identifier escapes the policy. -/
theorem malformed_user_id_aborts :
    get_user_id_parts "not-a-user-id" = none ∧
    membership ⟨["trusted.example"], false⟩ "@jose:example.org" ⟨[]⟩
      ⟨some ⟨[], [("@jose:example.org", 100)]⟩, true⟩
      ⟨"join", some "leave", "not-a-user-id"⟩ = ⟨true, [], []⟩ := by
  decide

/-- C5: end-to-end demotion scenario: `@spam:evil.example` joins a room
with allowlist `{trusted.example}`, no dry-run, all calls succeeding;
exactly one state write goes out, carrying the user override `-1` and
the `m.reaction` event override `-1`, and exactly one confirmation
message goes out, a `join_confirm` annotation for
`@spam:evil.example` whose body names the token
`hash_user_id "@spam:evil.example"`. -/
theorem end_to_end_demotion_scenario :
    (membership ⟨["trusted.example"], false⟩ "@jose:example.org" ⟨[]⟩
        ⟨some ⟨[], [("@jose:example.org", 100)]⟩, true⟩
        ⟨"join", none, "@spam:evil.example"⟩).puts.length = 1 ∧
    ((membership ⟨["trusted.example"], false⟩ "@jose:example.org" ⟨[]⟩
        ⟨some ⟨[], [("@jose:example.org", 100)]⟩, true⟩
        ⟨"join", none, "@spam:evil.example"⟩).puts.headD
        ⟨[], []⟩).users.lookup "@spam:evil.example" = some (-1) ∧
    ((membership ⟨["trusted.example"], false⟩ "@jose:example.org" ⟨[]⟩
        ⟨some ⟨[], [("@jose:example.org", 100)]⟩, true⟩
        ⟨"join", none, "@spam:evil.example"⟩).puts.headD
        ⟨[], []⟩).events.lookup "m.reaction" = some (-1) ∧
    (membership ⟨["trusted.example"], false⟩ "@jose:example.org" ⟨[]⟩
        ⟨some ⟨[], [("@jose:example.org", 100)]⟩, true⟩
        ⟨"join", none, "@spam:evil.example"⟩).messages =
      [{ msgtype := "m.notice"
         body := "新加群的用户 None (@spam:evil.example) 请用 Reaction "
           ++ hash_user_id "@spam:evil.example" ++ " 回复本条消息"
         bot_type := "join_confirm"
         bot_state_key := some "@spam:evil.example"
         bot_in_reply_to := none }] ∧
    hash_user_id "@spam:evil.example" = "😋" := by
  decide

/-- C9: the reaction resolver writes permission state only when the
target event was fetched, is a bot-authored `join_confirm` annotation,
and the reaction's key equals the token recomputed from the annotation's
`state_key`; a fetch failure aborts that attempt with no action, and a
token mismatch results in no action. -/
theorem reaction_resolver_guarded (env : ReactionEnv) (key : Option String) :
    ((reaction env key).puts ≠ [] →
      ∃ tgt sk, env.get_event = some tgt ∧ is_bot_event tgt = true ∧
        get_bot_event_type tgt = some "join_confirm" ∧
        get_bot_state_key tgt = some sk ∧ key = some (hash_user_id sk)) ∧
    (env.get_event = none → reaction env key = reactionNoop) ∧
    (∀ tgt sk, env.get_event = some tgt → get_bot_state_key tgt = some sk →
      key ≠ some (hash_user_id sk) → reaction env key = reactionNoop) := by
  refine ⟨?_, ?_, ?_⟩
  · intro hne
    rcases hge : env.get_event with _ | tgt
    · simp [reaction, hge, reactionNoop] at hne
    · refine ⟨tgt, ?_⟩
      by_cases hguard : is_bot_event tgt = true ∧
          get_bot_event_type tgt = some "join_confirm"
      · rcases hsk : get_bot_state_key tgt with _ | sk
        · simp [reaction, hge, hguard, hsk] at hne
        · refine ⟨sk, rfl, hguard.1, hguard.2, rfl, ?_⟩
          by_cases hkey : key = some (hash_user_id sk)
          · exact hkey
          · simp [reaction, hge, hguard, hsk, hkey, reactionNoop] at hne
      · simp [reaction, hge, hguard, reactionNoop] at hne
  · intro hnone
    simp [reaction, hnone]
  · intro tgt sk hge hsk hkey
    by_cases hguard : is_bot_event tgt = true ∧
        get_bot_event_type tgt = some "join_confirm"
    · simp [reaction, hge, hguard, hsk, hkey]
    · simp [reaction, hge, hguard]

/-- Witness for C9: when the target-event fetch fails, the resolver does
nothing. -/
theorem reaction_resolver_guarded_witness :
    reaction ⟨none, none⟩ none = reactionNoop :=
  (reaction_resolver_guarded ⟨none, none⟩ none).2.1 rfl

/-- C10: a successful resolution writes back exactly the freshly re-read
state with the target user's entry removed from `users`: the `events`
mapping (in particular its `m.reaction` override) is written back
unchanged, and every other user's entry is unchanged. -/
theorem resolution_frame (env : ReactionEnv) (key : Option String)
    (tgt : FetchedEvent) (sk : String) (st : PowerLevelsContent)
    (w : PowerLevelsContent)
    (hge : env.get_event = some tgt)
    (hty : get_bot_event_type tgt = some "join_confirm")
    (hsk : get_bot_state_key tgt = some sk)
    (hkey : key = some (hash_user_id sk))
    (hst : env.get_state = some st)
    (hnd : (st.users.map Prod.fst).Nodup)
    (hw : (reaction env key).puts = [w]) :
    w.events = st.events ∧
    w.events.lookup "m.reaction" = st.events.lookup "m.reaction" ∧
    w.users.lookup sk = none ∧
    (∀ v, v ≠ sk → w.users.lookup v = st.users.lookup v) := by
  have hbot : is_bot_event tgt = true := by
    unfold get_bot_event_type at hty
    by_cases h : is_bot_event tgt = true
    · exact h
    · simp [h] at hty
  rcases hdel : dictDel st.users sk with _ | users'
  · simp [reaction, hge, hbot, hty, hsk, hkey, hst, hdel] at hw
  · have hw' : w = ⟨st.events, users'⟩ := by
      simp [reaction, hge, hbot, hty, hsk, hkey, hst, hdel] at hw
      exact hw.symm
    subst hw'
    exact ⟨rfl, rfl, lookup_dictDel_self _ _ _ hnd hdel,
      fun v hv => lookup_dictDel_ne _ _ _ _ hdel hv⟩

/-- Witness for C10: resolving `@spam:evil.example` out of a two-entry
`users` map leaves its entry absent from the written state. -/
theorem resolution_frame_witness :
    (PowerLevelsContent.mk [("m.reaction", -1)] [("@jose:example.org", 100)]
      ).users.lookup "@spam:evil.example" = none :=
  (resolution_frame
    ⟨some ⟨some ⟨some "join_confirm", some "@spam:evil.example"⟩⟩,
      some ⟨[("m.reaction", -1)],
        [("@jose:example.org", 100), ("@spam:evil.example", -1)]⟩⟩
    (some (hash_user_id "@spam:evil.example"))
    ⟨some ⟨some "join_confirm", some "@spam:evil.example"⟩⟩
    "@spam:evil.example"
    ⟨[("m.reaction", -1)],
      [("@jose:example.org", 100), ("@spam:evil.example", -1)]⟩
    ⟨[("m.reaction", -1)], [("@jose:example.org", 100)]⟩
    rfl rfl rfl rfl rfl (by decide) (by decide)).2.2.1

/-- C2: a successful demotion (new join, parse ok, domain not
allowlisted, no dry-run, read/capability/write ok) writes the demoted
state, and a subsequent resolution that re-reads that state and carries
the correct recomputed token writes a state in which the user is no
longer present in the `users` map. -/
theorem demote_resolve_round_trip (cfg : Config) (bot_user : String)
    (room : MatrixRoom) (env : MembershipEnv) (ev : MemberEvent)
    (lp domain : String) (st : PowerLevelsContent) (renv : ReactionEnv)
    (hnew : newJoin ev)
    (hparse : get_user_id_parts ev.state_key = some (lp, domain))
    (hall : domain ∉ cfg.allowed_servers)
    (hdry : cfg.dry_run = false)
    (hread : env.get_state = some st)
    (hcap : can_user_send_state (dictSet st.events "m.reaction" (-1)) st.users
      bot_user "m.room.power_levels" = true)
    (hput : env.put_ok = true)
    (hnd : (st.users.map Prod.fst).Nodup)
    (hfetch : renv.get_event =
      some ⟨some ⟨some "join_confirm", some ev.state_key⟩⟩)
    (hrstate : renv.get_state =
      some ⟨dictSet st.events "m.reaction" (-1),
            dictSet st.users ev.state_key (-1)⟩) :
    (membership cfg bot_user room env ev).puts =
      [⟨dictSet st.events "m.reaction" (-1),
        dictSet st.users ev.state_key (-1)⟩] ∧
    (reaction renv (some (hash_user_id ev.state_key))).errored = false ∧
    (reaction renv (some (hash_user_id ev.state_key))).puts.length = 1 ∧
    ((reaction renv (some (hash_user_id ev.state_key))).puts.headD
      ⟨[], []⟩).users.lookup ev.state_key = none := by
  obtain ⟨users', hdel⟩ := dictDel_of_lookup
    (dictSet st.users ev.state_key (-1)) ev.state_key (-1)
    (lookup_dictSet_self st.users ev.state_key (-1))
  have hlook : users'.lookup ev.state_key = none :=
    lookup_dictDel_self _ _ _ (nodup_keys_dictSet _ _ _ hnd) hdel
  refine ⟨?_, ?_⟩
  · rw [membership, if_pos hnew, hparse]
    simp [hall, hdry, hread, hcap, hput]
  · simp [reaction, hfetch, hrstate, hdel, is_bot_event, get_bot_event_type,
      get_bot_state_key, hlook]

/-- Witness for C2: the round trip at `@spam:evil.example`. -/
theorem demote_resolve_round_trip_witness :
    ((reaction
      ⟨some ⟨some ⟨some "join_confirm", some "@spam:evil.example"⟩⟩,
        some ⟨[("m.reaction", -1)],
          [("@jose:example.org", 100), ("@spam:evil.example", -1)]⟩⟩
      (some (hash_user_id "@spam:evil.example"))).puts.headD
      ⟨[], []⟩).users.lookup "@spam:evil.example" = none :=
  (demote_resolve_round_trip ⟨["trusted.example"], false⟩
    "@jose:example.org" ⟨[]⟩
    ⟨some ⟨[], [("@jose:example.org", 100)]⟩, true⟩
    ⟨"join", none, "@spam:evil.example"⟩ "spam" "evil.example"
    ⟨[], [("@jose:example.org", 100)]⟩
    ⟨some ⟨some ⟨some "join_confirm", some "@spam:evil.example"⟩⟩,
      some ⟨[("m.reaction", -1)],
        [("@jose:example.org", 100), ("@spam:evil.example", -1)]⟩⟩
    (by decide) (by decide) (by decide) rfl rfl (by decide) rfl
    (by decide) rfl rfl).2.2.2

/-- C3: at the failing input: the first correct replay removes the
target user's override; replaying the identical correct reaction against
the resulting state raises `KeyError` (`del users[state_key]` with the
key already absent), an uncaught error — contradicting the claim that
the second replay must not error.  (No re-demotion or double-restore
happens: the errored second replay performs no write.) -/
theorem replay_resolution_key_error :
    reaction ⟨some ⟨some ⟨some "join_confirm", some "@spam:evil.example"⟩⟩,
      some ⟨[("m.reaction", -1)],
        [("@jose:example.org", 100), ("@spam:evil.example", -1)]⟩⟩
      (some "😋") =
      ⟨false, [⟨[("m.reaction", -1)], [("@jose:example.org", 100)]⟩]⟩ ∧
    reaction ⟨some ⟨some ⟨some "join_confirm", some "@spam:evil.example"⟩⟩,
      some ⟨[("m.reaction", -1)], [("@jose:example.org", 100)]⟩⟩
      (some "😋") = ⟨true, []⟩ ∧
    hash_user_id "@spam:evil.example" = "😋" := by
  decide

end JoseBot

/-! Validation of the XXH64 embedding against published test vectors
(seed 0); the last one is long enough to exercise the 32-byte stripe
loop. -/

example : JoseBot.xxh64_intdigest "" = 0xEF46DB3751D8E999 := by decide

example : JoseBot.xxh64_intdigest "a" = 0xD24EC4F1A98C6E5B := by decide

example : JoseBot.xxh64_intdigest "abc" = 0x44BC2CF5AD770999 := by decide

example : JoseBot.xxh64_intdigest "The quick brown fox jumps over the lazy dog"
    = 0x0B242D361FDA71BC := by decide
